import Mathlib

/-!
Shallow embedding of the engagement-graph pipeline.

The embedding follows the two Python source files:

* `scripts/update_data.py` — the aggregation script: it builds a user
  directory from the Slack member list (`fetch_slack_user_directory`),
  fetches per-email message counts and per-email completed-issue counts
  (`fetch_slack_data`, `fetch_linear_data`), takes the union of the three
  email key sets, and emits one merged row per email (`main`).
* `app.py` — the dashboard: it loads the persisted table
  (`load_data_from_csv`), groups rows by the `User` column summing the
  count columns (`df_grouped = df.groupby("User")[...].sum()`), computes
  weighted scores and a productivity column, and sorts by `Total Score`
  descending (`df_ranked = df_grouped.sort_values("Total Score",
  ascending=False)`).

Numeric conventions: Python ints (counts, working hours) are modelled as
`ℕ`; Python floats (weights, scores, productivity) are modelled as `ℚ`,
giving the real-number semantics the spec describes.  Python dicts keyed
by strings are modelled as association lists with insert-or-overwrite
semantics; a Python `set` of emails is modelled as a deduplicated list
(every property proved about it is order-invariant).  String comparison
is modelled code-point-wise on the underlying character list, exactly the
comparison Python applies when pandas sorts a string column.  pandas
`sort_values(by, ascending=False)` computes an *ascending* argsort of
the key column with numpy's default `kind='quicksort'` (introsort — not
stable in general; it reduces to a stable insertion sort only below its
small-partition cutoff of about 16 elements) and then reverses the
resulting indexer (`nargsort`: `indexer = indexer[::-1]`).  The
embedding picks insertion sort followed by `List.reverse` as one
concrete deterministic refinement of that: it agrees with the program
exactly on tables below the cutoff (every concrete table evaluated here
has at most two groups), and the only general theorems proved about the
ranked table are tie-order-invariant — sortedness by the key and being
a permutation of the scored table — which hold for every sort kind, so
no proof relies on a tie order the program does not guarantee.
External calls (Slack API, Linear API, the CSV file) are modelled as
explicit outcome parameters; a Python exception escaping a function is
modelled as an `Except.error`.
-/

namespace EngagementGraph

/-- Directory attributes kept per email by `fetch_slack_user_directory`:
the Python dict `{"User Name": ..., "Role": ..., "Avatar": ...}`. -/
structure Profile where
  userName : String
  role : String
  avatar : String
deriving DecidableEq

/-- One merged output row built by `main` in `scripts/update_data.py`
(lines 199-208): the dict appended to `rows`. -/
structure MRow where
  email : String
  user : String
  role : String
  avatar : String
  slackCount : ℕ
  linearCount : ℕ
  workingHours : ℕ
deriving DecidableEq

/-- Association-list lookup modelling Python `dict.get` on the directory. -/
def lookupD : List (String × Profile) → String → Option Profile
  | [], _ => none
  | (k, v) :: rest, e => if k = e then some v else lookupD rest e

/-- The fallback profile synthesized in `main` for an email missing from
the directory: `{"User Name": email, "Role": "Unknown", "Avatar": ""}`. -/
def fallbackProfile (e : String) : Profile :=
  ⟨e, "Unknown", ""⟩

/-- Sum of all count entries for one email, modelling
`df[df["Email"] == email]["... Count"].sum()` with default 0 when the
frame is empty or has no matching row. -/
def countFor (src : List (String × ℕ)) (e : String) : ℕ :=
  ((src.filter (fun p => p.1 = e)).map Prod.snd).sum

/-- One merged row for one email, following `main` lines 176-208. -/
def rowFor (dir : List (String × Profile)) (slack linear : List (String × ℕ))
    (e : String) : MRow :=
  let p := (lookupD dir e).getD (fallbackProfile e)
  { email := e
    user := p.userName
    role := p.role
    avatar := p.avatar
    slackCount := countFor slack e
    linearCount := countFor linear e
    workingHours := if p.role = "Employee" then 40 else 20 }

/-- The identity universe: `all_emails = set(directory) | emails_slack |
emails_linear` (`main` lines 169-172), as a deduplicated key list. -/
def allEmails (dir : List (String × Profile)) (slack linear : List (String × ℕ)) :
    List String :=
  (dir.map Prod.fst ++ slack.map Prod.fst ++ linear.map Prod.fst).dedup

/-- The merged table: one row per email of the universe (`main` lines
174-208). -/
def mergeRows (dir : List (String × Profile)) (slack linear : List (String × ℕ)) :
    List MRow :=
  (allEmails dir slack linear).map (rowFor dir slack linear)

/-- Code-point-wise comparison of character lists: the comparison Python
applies to strings (and hence pandas to the `User` column). -/
def charsLe : List Char → List Char → Bool
  | [], _ => true
  | _ :: _, [] => false
  | a :: as, b :: bs =>
    if a < b then true
    else if b < a then false
    else charsLe as bs

/-- String comparison, code-point-wise on the underlying characters. -/
def strLe (a b : String) : Bool := charsLe a.data b.data

/-- Group keys of `df_filtered.groupby("User")`: the distinct values of
the `User` column, sorted ascending (pandas `groupby` sorts its keys). -/
def groupUsers (rows : List MRow) : List String :=
  List.insertionSort (fun a b => strLe a b = true) (rows.map MRow.user).dedup

/-- One row of the dashboard's scored table `df_grouped`: the per-user
sums plus the score columns assigned in `app.py` lines 88-96. -/
structure ScoredRow where
  user : String
  slackCount : ℕ
  linearCount : ℕ
  workingHours : ℕ
  slackScore : ℚ
  linearScore : ℚ
  totalScore : ℚ
  productivity : ℚ
deriving DecidableEq

/-- The divisor used for `Productivity`: `Working Hours` with 0 replaced
by 1 (`df_grouped["Working Hours"].replace(0, 1)`, `app.py` line 96). -/
def effectiveHours (wh : ℕ) : ℚ := if wh = 0 then 1 else (wh : ℚ)

/-- Per-user column sum of `groupby("User")[[...]].sum()`. -/
def sumBy (rows : List MRow) (f : MRow → ℕ) (u : String) : ℕ :=
  ((rows.filter (fun r => r.user = u)).map f).sum

/-- The scored row for one `User` group, following `app.py` lines 88-96. -/
def scoredRowFor (rows : List MRow) (wS wL : ℚ) (u : String) : ScoredRow :=
  let sc := sumBy rows MRow.slackCount u
  let lc := sumBy rows MRow.linearCount u
  let wh := sumBy rows MRow.workingHours u
  let ss : ℚ := (sc : ℚ) * wS
  let ls : ℚ := (lc : ℚ) * wL
  { user := u
    slackCount := sc
    linearCount := lc
    workingHours := wh
    slackScore := ss
    linearScore := ls
    totalScore := ss + ls
    productivity := (ss + ls) / effectiveHours wh }

/-- The dashboard's scored table `df_grouped` as a function of the input
table and the two weight sliders. -/
def df_grouped (rows : List MRow) (wS wL : ℚ) : List ScoredRow :=
  (groupUsers rows).map (scoredRowFor rows wS wL)

/-- Sort key of `df_ranked = df_grouped.sort_values("Total Score",
ascending=False)`. -/
def scoreLe (a b : ScoredRow) : Prop := a.totalScore ≤ b.totalScore

instance : DecidableRel scoreLe :=
  fun a b => inferInstanceAs (Decidable (a.totalScore ≤ b.totalScore))

instance : IsTotal ScoredRow scoreLe := ⟨fun a b => le_total a.totalScore b.totalScore⟩

instance : IsTrans ScoredRow scoreLe := ⟨fun _ _ _ h1 h2 => le_trans h1 h2⟩

/-- The ranked table: pandas `sort_values` computes an ascending argsort
of `Total Score` (numpy quicksort — tie order unspecified in general,
insertion sort below the ~16-element cutoff) and, for `ascending=False`,
reverses the indexer.  Insertion sort plus `List.reverse` is one
deterministic refinement of that; it coincides with the program on the
small tables evaluated concretely here, and the general theorems about
this definition use only tie-order-invariant properties. -/
def df_ranked (rows : List MRow) (wS wL : ℚ) : List ScoredRow :=
  (List.insertionSort scoreLe (df_grouped rows wS wL)).reverse

/-- A Python exception escaping a modelled function. -/
inductive PyErr where
  | valueError
  | nameError
deriving DecidableEq

/-- The `profile` sub-dict of a Slack member record: the fields the
script reads (`email`, `image_48`), each possibly absent. -/
structure SlackProfile where
  email : Option String
  image48 : Option String
deriving DecidableEq

/-- A Slack member record as consumed by `fetch_slack_user_directory`:
`name`, optional `real_name`, the exclusion flags, and the optional
`profile` sub-dict (a record may lack the `profile` key entirely). -/
structure SlackMember where
  name : String
  realName : Option String
  isBot : Bool
  deleted : Bool
  isRestricted : Bool
  isUltraRestricted : Bool
  profile : Option SlackProfile
deriving DecidableEq

/-- Outcome of the `client.users_list()` call: either a `SlackApiError`
or a member list. -/
inductive SlackUsersResult where
  | apiError
  | ok (members : List SlackMember)
deriving DecidableEq

/-- Display name selection `u.get("real_name") or u["name"]`: the handle
is used when `real_name` is absent or empty (falsy). -/
def displayName (m : SlackMember) : String :=
  match m.realName with
  | none => m.name
  | some r => if r = "" then m.name else r

/-- Python dict assignment `directory[email] = {...}`: overwrite the
entry if the key exists, append it otherwise. -/
def dictInsert (d : List (String × Profile)) (k : String) (v : Profile) :
    List (String × Profile) :=
  if d.any (fun p => p.1 = k) then d.map (fun p => if p.1 = k then (k, v) else p)
  else d ++ [(k, v)]

/-- One iteration of the directory-building loop
(`scripts/update_data.py` lines 29-45): skip bots, deleted accounts,
records without a `profile`, and records without a (truthy) email;
classify guests as Contractor, everyone else as Employee. -/
def dirStep (d : List (String × Profile)) (m : SlackMember) :
    List (String × Profile) :=
  if m.isBot || m.deleted then d
  else
    match m.profile with
    | none => d
    | some p =>
      match p.email with
      | none => d
      | some e =>
        if e = "" then d
        else
          dictInsert d e
            ⟨displayName m,
             if m.isRestricted || m.isUltraRestricted then "Contractor" else "Employee",
             p.image48.getD ""⟩

/-- The directory built from the member list. -/
def buildDirectory (ms : List SlackMember) : List (String × Profile) :=
  ms.foldl dirStep []

/-- The Directory Resolver (`fetch_slack_user_directory`): with no
`SLACK_TOKEN` it executes `raise ValueError(...)` (modelled as an
`Except.error`); with a token, a `SlackApiError` from `users_list()` is
caught and an empty directory returned, otherwise the directory is built
from the member list. -/
def fetch_slack_user_directory (token : Option String) (resp : SlackUsersResult) :
    Except PyErr (List (String × Profile)) :=
  match token with
  | none => .error .valueError
  | some _ =>
    match resp with
    | .apiError => .ok []
    | .ok ms => .ok (buildDirectory ms)

/-- The `assignee` sub-object of one Linear issue. -/
structure LinearAssignee where
  email : Option String
deriving DecidableEq

/-- One issue node returned by the Linear GraphQL query. -/
structure LinearIssue where
  title : String
  assignee : Option LinearAssignee
deriving DecidableEq

/-- Outcome of the HTTP POST to the Linear API: a connection failure
(any exception) or a response with a status code and parsed issues. -/
inductive LinearResult where
  | connError
  | response (status : ℕ) (issues : List LinearIssue)
deriving DecidableEq

/-- Python `counts[email] = counts.get(email, 0) + 1`. -/
def bumpCount (m : List (String × ℕ)) (e : String) : List (String × ℕ) :=
  if m.any (fun p => p.1 = e) then m.map (fun p => if p.1 = e then (p.1, p.2 + 1) else p)
  else m ++ [(e, 1)]

/-- One iteration of the issue-counting loop
(`scripts/update_data.py` lines 133-137): count an issue only when it
has an assignee with a truthy email. -/
def issueStep (m : List (String × ℕ)) (i : LinearIssue) : List (String × ℕ) :=
  match i.assignee with
  | none => m
  | some a =>
    match a.email with
    | none => m
    | some e => if e = "" then m else bumpCount m e

/-- Per-email completed-issue counts from the parsed issue nodes. -/
def countLinearIssues (issues : List LinearIssue) : List (String × ℕ) :=
  issues.foldl issueStep []

/-- The tracker adapter (`fetch_linear_data`): missing API key, non-200
response, and connection errors each yield the empty count table
(`pd.DataFrame(columns=["Email", "Linear Count"])`); a 200 response
yields the counts. -/
def fetch_linear_data (apiKey : Option String) (resp : LinearResult) :
    List (String × ℕ) :=
  match apiKey with
  | none => []
  | some _ =>
    match resp with
    | .connError => []
    | .response status issues => if status ≠ 200 then [] else countLinearIssues issues

/-- State of `data/engagement.csv` when the dashboard reads it. -/
inductive CsvFileState where
  | missing
  | unreadable
  | ok (rows : List MRow)
deriving DecidableEq

/-- The names bound at module level in `app.py` when
`load_data_from_csv` runs: its imports (`streamlit as st`, `pandas as
pd`, `numpy as np`, `datetime`, `timedelta`) and the two functions.
`app.py` contains no `import os`. -/
def appModuleGlobals : List String :=
  ["st", "pd", "np", "datetime", "timedelta", "check_password", "load_data_from_csv"]

/-- The dashboard's CSV loader (`app.py` lines 32-47).  Its first
statement evaluates `os.path.exists(file_path)` (outside the
`try` block), which requires resolving the module-level name `os`; if
that name is unbound the call raises `NameError`.  Otherwise a missing
file yields an empty frame, `pd.read_csv` failures are caught and yield
an empty frame, and a readable file yields its rows. -/
def load_data_from_csv (fs : CsvFileState) : Except PyErr (List MRow) :=
  if "os" ∈ appModuleGlobals then
    match fs with
    | .missing => .ok []
    | .unreadable => .ok []
    | .ok rows => .ok rows
  else .error .nameError

/-- Directory input of the spec's single-identity scenario:
`{a@x.com: Employee}`. -/
def exDir5 : List (String × Profile) := [("a@x.com", ⟨"Alice", "Employee", ""⟩)]

/-- Messaging-count input of the spec's single-identity scenario:
`{a@x.com: 10}`. -/
def exSlack5 : List (String × ℕ) := [("a@x.com", 10)]

/-- Input table exercising the zero-hours guard: one raw row whose
working hours are 0. -/
def ex6Rows : List MRow := [⟨"z@x.com", "Zed", "Unknown", "", 2, 3, 0⟩]

/-- The scored row the dashboard computes from `ex6Rows` with both
weights 1: productivity falls back to dividing by 1. -/
def ex6Row : ScoredRow := ⟨"Zed", 2, 3, 0, 2, 3, 5, 5⟩

/-- Input table for the weight-linearity witness. -/
def ex7Rows : List MRow := [⟨"a@x.com", "Alice", "Employee", "", 3, 4, 40⟩]

/-- Merged table with two identities known to no directory (so `User`
falls back to the email) and identical activity, hence tied scores. -/
def ex3Rows : List MRow :=
  [⟨"a@x.com", "a@x.com", "Unknown", "", 5, 0, 20⟩,
   ⟨"b@x.com", "b@x.com", "Unknown", "", 5, 0, 20⟩]

/-- Directory with two distinct emails sharing the display name `Bob`. -/
def ex2Dir : List (String × Profile) :=
  [("a@x.com", ⟨"Bob", "Employee", ""⟩), ("b@x.com", ⟨"Bob", "Employee", ""⟩)]

/-- Messaging counts for the C2 witness: one email unknown to any
directory. -/
def ex2Slack : List (String × ℕ) := [("c@x.com", 1)]

/-- A guest (restricted) Slack member for the C10 witness. -/
def ex10Member : SlackMember :=
  ⟨"bob", some "Bob R", false, false, true, false, some ⟨some "b@x.com", none⟩⟩

/-- Messaging counts for the C10 witness: an email outside the
directory. -/
def ex10Slack : List (String × ℕ) := [("c@x.com", 3)]

/-- The merged row for the guest member in the C10 witness. -/
def ex10Row : MRow := ⟨"b@x.com", "Bob R", "Contractor", "", 0, 0, 20⟩

/-- Directory input for the C8 witness. -/
def ex8Dir : List (String × Profile) := [("a@x.com", ⟨"Alice", "Employee", ""⟩)]

/-- The property every directory value satisfies: its role is one of
the two classifications assigned by the directory-building loop. -/
def rolesOk (d : List (String × Profile)) : Prop :=
  ∀ p ∈ d, p.2.role = "Employee" ∨ p.2.role = "Contractor"

lemma rowFor_email (dir : List (String × Profile)) (slack linear : List (String × ℕ))
    (e : String) : (rowFor dir slack linear e).email = e := rfl

lemma mergeRows_map_email (dir : List (String × Profile))
    (slack linear : List (String × ℕ)) :
    (mergeRows dir slack linear).map MRow.email = allEmails dir slack linear := by
  simp [mergeRows, Function.comp_def, rowFor_email]

lemma forall₂_map_of_forall {α β : Type _} {R : β → β → Prop} {f g : α → β}
    (l : List α) (h : ∀ x ∈ l, R (f x) (g x)) :
    List.Forall₂ R (l.map f) (l.map g) := by
  induction l with
  | nil => exact List.Forall₂.nil
  | cons x xs ih =>
    simp only [List.map_cons]
    exact List.Forall₂.cons (h x (List.mem_cons_self x xs))
      (ih fun y hy => h y (List.mem_cons_of_mem x hy))

lemma groupUsers_nodup (rows : List MRow) : (groupUsers rows).Nodup :=
  ((List.perm_insertionSort (fun a b => strLe a b = true)
    (rows.map MRow.user).dedup).nodup_iff).mpr (List.nodup_dedup _)

lemma scoredRowFor_user (rows : List MRow) (wS wL : ℚ) (u : String) :
    (scoredRowFor rows wS wL u).user = u := rfl

lemma df_grouped_map_user (rows : List MRow) (wS wL : ℚ) :
    (df_grouped rows wS wL).map ScoredRow.user = groupUsers rows := by
  simp [df_grouped, Function.comp_def, scoredRowFor_user]

lemma df_ranked_perm (rows : List MRow) (wS wL : ℚ) :
    (df_ranked rows wS wL).Perm (df_grouped rows wS wL) :=
  (List.reverse_perm _).trans (List.perm_insertionSort scoreLe _)

lemma lookupD_eq_none {dir : List (String × Profile)} {e : String}
    (h : e ∉ dir.map Prod.fst) : lookupD dir e = none := by
  induction dir with
  | nil => rfl
  | cons kv rest ih =>
    obtain ⟨k, v⟩ := kv
    simp only [List.map_cons, List.mem_cons] at h
    push_neg at h
    rw [lookupD, if_neg (fun hk => h.1 hk.symm)]
    exact ih h.2

lemma lookupD_rolesOk {dir : List (String × Profile)} (hd : rolesOk dir)
    {e : String} {q : Profile} (h : lookupD dir e = some q) :
    q.role = "Employee" ∨ q.role = "Contractor" := by
  induction dir with
  | nil => cases h
  | cons kv rest ih =>
    obtain ⟨k, v⟩ := kv
    rw [lookupD] at h
    by_cases hk : k = e
    · rw [if_pos hk] at h
      have h2 : v = q := Option.some.inj h
      exact h2 ▸ hd (k, v) (List.mem_cons_self _ _)
    · rw [if_neg hk] at h
      exact ih (fun p hp => hd p (List.mem_cons_of_mem _ hp)) h

lemma rolesOk_dictInsert {d : List (String × Profile)} (hd : rolesOk d)
    {k : String} {v : Profile}
    (hv : v.role = "Employee" ∨ v.role = "Contractor") :
    rolesOk (dictInsert d k v) := by
  intro p hp
  unfold dictInsert at hp
  by_cases h : d.any (fun q => q.1 = k)
  · rw [if_pos h] at hp
    obtain ⟨q, hq, hqe⟩ := List.mem_map.mp hp
    by_cases h2 : q.1 = k
    · rw [if_pos h2] at hqe; rw [← hqe]; exact hv
    · rw [if_neg h2] at hqe; rw [← hqe]; exact hd q hq
  · rw [if_neg h] at hp
    rcases List.mem_append.mp hp with h1 | h1
    · exact hd p h1
    · rw [List.mem_singleton.mp h1]; exact hv

lemma rolesOk_dirStep {d : List (String × Profile)} (hd : rolesOk d)
    (m : SlackMember) : rolesOk (dirStep d m) := by
  obtain ⟨nm, rn, ib, dl, ir, iur, pr⟩ := m
  simp only [dirStep]
  by_cases h1 : (ib || dl) = true
  · rw [if_pos h1]; exact hd
  · rw [if_neg h1]
    cases pr with
    | none => exact hd
    | some p =>
      obtain ⟨em, img⟩ := p
      cases em with
      | none => exact hd
      | some e =>
        by_cases h2 : e = ""
        · simp only [if_pos h2]; exact hd
        · simp only [if_neg h2]
          refine rolesOk_dictInsert hd ?_
          by_cases h3 : (ir || iur) = true
          · right; simp [h3]
          · left; simp [h3]

lemma rolesOk_buildDirectory (ms : List SlackMember) :
    rolesOk (buildDirectory ms) := by
  have key : ∀ (l : List SlackMember) (d : List (String × Profile)),
      rolesOk d → rolesOk (l.foldl dirStep d) := by
    intro l
    induction l with
    | nil => intro d hd; exact hd
    | cons m rest ih =>
      intro d hd
      exact ih (dirStep d m) (rolesOk_dirStep hd m)
  exact key ms [] (fun p hp => absurd hp (List.not_mem_nil p))

/-- C1: the merged output has exactly one row per email, and the set of
emails in the output is exactly the union of the directory keys, the
messaging-count keys and the issue-count keys; no key is lost even when
an identity is missing from one or two of the three inputs. -/
theorem merged_universe_is_union (dir : List (String × Profile))
    (slack linear : List (String × ℕ)) :
    ((mergeRows dir slack linear).map MRow.email).Nodup ∧
    ∀ e, e ∈ (mergeRows dir slack linear).map MRow.email ↔
      (e ∈ dir.map Prod.fst ∨ e ∈ slack.map Prod.fst ∨ e ∈ linear.map Prod.fst) := by
  refine ⟨?_, ?_⟩
  · rw [mergeRows_map_email]
    exact List.nodup_dedup _
  · intro e
    rw [mergeRows_map_email]
    simp [allEmails, List.mem_dedup, or_assoc]

/-- C2 (amended): the **merged** table has exactly one record per email,
and an email absent from the directory gets role `Unknown` and a display
name equal to the email.  The ranked table, however, is keyed by display
name: it has exactly one record per `User` value, so distinct emails
sharing a display name are aggregated into a single record rather than
kept one-per-email. -/
theorem one_record_per_email (dir : List (String × Profile))
    (slack linear : List (String × ℕ)) (wS wL : ℚ) :
    ((mergeRows dir slack linear).map MRow.email).Nodup ∧
    (∀ row ∈ mergeRows dir slack linear, row.email ∉ dir.map Prod.fst →
      row.role = "Unknown" ∧ row.user = row.email) ∧
    ((df_ranked (mergeRows dir slack linear) wS wL).map ScoredRow.user).Nodup := by
  refine ⟨?_, ?_, ?_⟩
  · rw [mergeRows_map_email]
    exact List.nodup_dedup _
  · intro row hrow
    obtain ⟨e, he, rfl⟩ := List.mem_map.mp hrow
    rw [rowFor_email]
    intro hnot
    rw [rowFor, lookupD_eq_none hnot]
    exact ⟨rfl, rfl⟩
  · have hperm := (df_ranked_perm (mergeRows dir slack linear) wS wL).map ScoredRow.user
    rw [hperm.nodup_iff, df_grouped_map_user]
    exact groupUsers_nodup _

theorem one_record_per_email_witness :
    (rowFor [] ex2Slack [] "c@x.com").role = "Unknown" ∧
    (rowFor [] ex2Slack [] "c@x.com").user = (rowFor [] ex2Slack [] "c@x.com").email :=
  (one_record_per_email [] ex2Slack [] 1 1).2.1 (rowFor [] ex2Slack [] "c@x.com")
    (by decide) (by decide)

/-- C2 counterexample: two distinct directory emails share the display
name `Bob`; the merged table has two records (one per email) but the
ranked table has a single record — so the ranked table does **not**
contain exactly one record per email. -/
theorem ranked_per_email_counterexample :
    (mergeRows ex2Dir [] []).length = 2 ∧
    ((mergeRows ex2Dir [] []).map MRow.email).Nodup ∧
    (df_ranked (mergeRows ex2Dir [] []) 1 1).length = 1 := by
  have hmerge : mergeRows ex2Dir [] [] =
      [⟨"a@x.com", "Bob", "Employee", "", 0, 0, 40⟩,
       ⟨"b@x.com", "Bob", "Employee", "", 0, 0, 40⟩] := by decide
  have hgroup : df_grouped (mergeRows ex2Dir [] []) 1 1 =
      [⟨"Bob", 0, 0, 80, 0, 0, 0, 0⟩] := by
    rw [hmerge]
    norm_num [df_grouped, groupUsers, scoredRowFor, sumBy, effectiveHours,
      List.insertionSort, List.orderedInsert, List.dedup_cons_of_mem,
      List.dedup_cons_of_not_mem, List.filter_cons, List.filter_nil]
  refine ⟨by rw [hmerge]; rfl, by rw [hmerge]; decide, ?_⟩
  rw [df_ranked, hgroup]
  norm_num [List.insertionSort, List.orderedInsert]

/-- C3 (amended): the ranked table is ordered by `total_score`
descending and is a permutation of the scored table (rank is the 1-based
position in this order, `df_ranked.index += 1`); for a fixed input the
output is deterministic.  Records with equal `total_score`, however, are
**not** ordered by identity key: the grouped table is keyed by display
name (`User`) and carries no email column, and `sort_values` applies no
tie-break of its own, leaving the relative order of tied records
unspecified (numpy quicksort) — on the two-row counterexample the tied
records in fact appear in the reverse of the claimed order.  The two
properties proved here are invariant under the tie order, so they hold
for the program whatever numpy's sort does on ties. -/
theorem ranked_order (rows : List MRow) (wS wL : ℚ) :
    (df_ranked rows wS wL).Pairwise (fun a b => b.totalScore ≤ a.totalScore) ∧
    (df_ranked rows wS wL).Perm (df_grouped rows wS wL) := by
  constructor
  · unfold df_ranked
    rw [List.pairwise_reverse]
    refine (List.sorted_insertionSort scoreLe (df_grouped rows wS wL)).imp ?_
    intro a b h
    exact h
  · exact df_ranked_perm rows wS wL

/-- C3 counterexample: on two records with equal `total_score` and
identity keys `a@x.com < b@x.com` (both outside the directory, so the
identity key doubles as the `User` value), the ranked table lists
`b@x.com` first — equal-score records do **not** appear in identity-key
ascending order. -/
theorem ranked_tiebreak_counterexample :
    (df_ranked ex3Rows 1 1).map ScoredRow.user = ["b@x.com", "a@x.com"] ∧
    (∀ r ∈ df_ranked ex3Rows 1 1, r.totalScore = 5) ∧
    (strLe "a@x.com" "b@x.com" = true ∧ "a@x.com" ≠ "b@x.com") ∧
    ¬ (df_ranked ex3Rows 1 1).Pairwise
        (fun a b => a.totalScore = b.totalScore → strLe a.user b.user = true) := by
  have hab : strLe "a@x.com" "b@x.com" = true := by decide
  have hba : strLe "b@x.com" "a@x.com" = false := by decide
  have hne : ("b@x.com" : String) ≠ "a@x.com" := by decide
  have hne' : ("a@x.com" : String) ≠ "b@x.com" := by decide
  have hgroup : df_grouped ex3Rows 1 1 =
      [⟨"a@x.com", 5, 0, 20, 5, 0, 5, 1/4⟩, ⟨"b@x.com", 5, 0, 20, 5, 0, 5, 1/4⟩] := by
    norm_num [df_grouped, ex3Rows, groupUsers, scoredRowFor, sumBy, effectiveHours,
      List.insertionSort, List.orderedInsert, List.dedup_cons_of_not_mem,
      List.filter_cons, List.filter_nil, hab, hba, hne, hne']
  have hrank : df_ranked ex3Rows 1 1 =
      [⟨"b@x.com", 5, 0, 20, 5, 0, 5, 1/4⟩, ⟨"a@x.com", 5, 0, 20, 5, 0, 5, 1/4⟩] := by
    rw [df_ranked, hgroup]
    norm_num [List.insertionSort, List.orderedInsert, scoreLe]
  refine ⟨?_, ?_, ⟨hab, by decide⟩, ?_⟩
  · rw [hrank]; rfl
  · rw [hrank]
    intro r hr
    rcases List.mem_cons.mp hr with h | hr'
    · rw [h]
    · rcases List.mem_cons.mp hr' with h | h
      · rw [h]
      · cases h
  · rw [hrank]
    intro hpair
    rcases List.pairwise_cons.mp hpair with ⟨hhead, _⟩
    have := hhead _ (List.mem_singleton_self _) rfl
    rw [hba] at this
    exact Bool.false_ne_true this

/-- C4 (amended): when the `users_list` platform call itself fails with
a `SlackApiError`, `fetch_slack_user_directory` returns an empty mapping
and the run proceeds; but when the credential (`SLACK_TOKEN`) is
missing, it raises `ValueError` — aborting the pipeline — rather than
returning an empty mapping. -/
theorem directory_failure_semantics (t : String) (resp : SlackUsersResult) :
    fetch_slack_user_directory (some t) .apiError = .ok [] ∧
    fetch_slack_user_directory none resp = .error .valueError :=
  ⟨rfl, rfl⟩

/-- C4 counterexample: with the Slack token missing,
`fetch_slack_user_directory` raises `ValueError` instead of returning an
empty mapping — contradicting "never raises, including when credentials
are missing". -/
theorem missing_token_raises_counterexample :
    fetch_slack_user_directory none .apiError = .error .valueError ∧
    ∀ d : List (String × Profile),
      fetch_slack_user_directory none .apiError ≠ .ok d := by
  refine ⟨rfl, ?_⟩
  intro d h
  cases h

/-- C5: on directory `{a@x.com: Employee}` (hence working hours 40),
messaging counts `{a@x.com: 10}`, empty tracker counts, and weights
`(0.1, 1.0)`, the pipeline produces exactly one record, for `a@x.com`,
with `slack_count = 10`, `linear_count = 0`, `slack_score = 1.0`,
`linear_score = 0.0`, `total_score = 1.0` and `productivity = 0.025`. -/
theorem scenario_single_identity :
    (mergeRows exDir5 exSlack5 []).map MRow.email = ["a@x.com"] ∧
    df_grouped (mergeRows exDir5 exSlack5 []) (1/10) 1 =
      [⟨"Alice", 10, 0, 40, 1, 0, 1, 0.025⟩] := by
  constructor
  · simp [mergeRows, exDir5, exSlack5, allEmails, rowFor,
      List.dedup_cons_of_not_mem]
  · norm_num [mergeRows, exDir5, exSlack5, allEmails, rowFor, lookupD, countFor,
      df_grouped, groupUsers, scoredRowFor, sumBy, effectiveHours,
      List.insertionSort, List.orderedInsert, List.dedup_cons_of_not_mem]

/-- C6: every scored record's productivity is `total_score` divided by
the effective hours, where the effective hours are `working_hours` when
positive and `1` when `working_hours = 0`; the divisor is never zero, so
a record with `working_hours = 0` still gets a finite productivity
(equal to its total score). -/
theorem productivity_zero_guard :
    (∀ wh : ℕ, effectiveHours wh ≠ 0) ∧
    (∀ wh : ℕ, 0 < wh → effectiveHours wh = (wh : ℚ)) ∧
    effectiveHours 0 = 1 ∧
    (∀ rows wS wL, ∀ r ∈ df_grouped rows wS wL,
      r.productivity = r.totalScore / effectiveHours r.workingHours ∧
      (r.workingHours = 0 → r.productivity = r.totalScore)) := by
  refine ⟨?_, ?_, rfl, ?_⟩
  · intro wh
    by_cases h : wh = 0
    · simp [effectiveHours, h]
    · simp [effectiveHours, h]
  · intro wh h
    simp [effectiveHours, Nat.pos_iff_ne_zero.mp h]
  · intro rows wS wL r hr
    obtain ⟨u, hu, rfl⟩ := List.mem_map.mp hr
    refine ⟨rfl, fun h0 => ?_⟩
    simp only [scoredRowFor] at h0 ⊢
    simp [h0, effectiveHours]

theorem productivity_zero_guard_witness :
    effectiveHours 40 = 40 ∧ ex6Row.productivity = ex6Row.totalScore := by
  constructor
  · exact productivity_zero_guard.2.1 40 (by norm_num)
  · exact (productivity_zero_guard.2.2.2 ex6Rows 1 1 ex6Row (by
      norm_num [df_grouped, ex6Rows, ex6Row, groupUsers, scoredRowFor, sumBy,
        effectiveHours, List.insertionSort, List.orderedInsert,
        List.dedup_cons_of_not_mem])).2 rfl

/-- C7: for every input table and non-negative weights, scoring is
linear in each weight independently — doubling the messaging weight
doubles every `slack_score`, leaves every `linear_score` unchanged, and
raises every `total_score` by the record's original `slack_score`;
symmetrically for the tracker weight. -/
theorem weight_linearity (rows : List MRow) (wS wL : ℚ)
    (hS : 0 ≤ wS) (hL : 0 ≤ wL) :
    List.Forall₂ (fun r2 r1 => r2.slackScore = 2 * r1.slackScore ∧
        r2.linearScore = r1.linearScore ∧
        r2.totalScore = r1.totalScore + r1.slackScore)
      (df_grouped rows (2 * wS) wL) (df_grouped rows wS wL) ∧
    List.Forall₂ (fun r2 r1 => r2.linearScore = 2 * r1.linearScore ∧
        r2.slackScore = r1.slackScore ∧
        r2.totalScore = r1.totalScore + r1.linearScore)
      (df_grouped rows wS (2 * wL)) (df_grouped rows wS wL) := by
  constructor
  · refine forall₂_map_of_forall _ fun u hu => ⟨?_, rfl, ?_⟩
    · simp only [scoredRowFor]; ring
    · simp only [scoredRowFor]; ring
  · refine forall₂_map_of_forall _ fun u hu => ⟨?_, rfl, ?_⟩
    · simp only [scoredRowFor]; ring
    · simp only [scoredRowFor]; ring

theorem weight_linearity_witness :
    List.Forall₂ (fun r2 r1 => r2.slackScore = 2 * r1.slackScore ∧
        r2.linearScore = r1.linearScore ∧
        r2.totalScore = r1.totalScore + r1.slackScore)
      (df_grouped ex7Rows (2 * 1) 1) (df_grouped ex7Rows 1 1) :=
  (weight_linearity ex7Rows 1 1 (by norm_num) (by norm_num)).1

/-- C8: when the tracker source is unavailable — missing API key,
non-200 response, or connection error — `fetch_linear_data` contributes
the empty collection (it returns a value in every case; no error
escapes), and merging with an empty tracker collection still yields
every directory and messaging identity, each with `linear_count = 0`. -/
theorem tracker_unavailable_degrades :
    (∀ resp, fetch_linear_data none resp = []) ∧
    (∀ k, fetch_linear_data (some k) .connError = []) ∧
    (∀ k status issues, status ≠ 200 →
      fetch_linear_data (some k) (.response status issues) = []) ∧
    (∀ dir slack, ∀ row ∈ mergeRows dir slack [], row.linearCount = 0) ∧
    (∀ dir slack e, (e ∈ dir.map Prod.fst ∨ e ∈ slack.map Prod.fst) →
      e ∈ (mergeRows dir slack []).map MRow.email) := by
  refine ⟨fun resp => rfl, fun k => rfl, ?_, ?_, ?_⟩
  · intro k status issues h
    simp [fetch_linear_data, h]
  · intro dir slack row hrow
    obtain ⟨e, he, rfl⟩ := List.mem_map.mp hrow
    rfl
  · intro dir slack e he
    rw [mergeRows_map_email]
    simp only [allEmails, List.mem_dedup, List.mem_append]
    rcases he with h | h
    · exact Or.inl (Or.inl h)
    · exact Or.inl (Or.inr h)

theorem tracker_unavailable_degrades_witness :
    fetch_linear_data (some "k") (.response 500 []) = [] ∧
    (rowFor ex8Dir [] [] "a@x.com").linearCount = 0 ∧
    "a@x.com" ∈ (mergeRows ex8Dir [] []).map MRow.email := by
  refine ⟨tracker_unavailable_degrades.2.2.1 "k" 500 [] (by decide), ?_, ?_⟩
  · exact tracker_unavailable_degrades.2.2.2.1 ex8Dir []
      (rowFor ex8Dir [] [] "a@x.com") (by decide)
  · exact tracker_unavailable_degrades.2.2.2.2 ex8Dir [] "a@x.com"
      (Or.inl (by decide))

/-- C9 (code bug): `app.py` never imports `os`, so the first statement
of `load_data_from_csv` (`os.path.exists(file_path)`, outside the `try`)
raises `NameError` on every read — missing, corrupt and readable files
alike — instead of returning an empty table to the presentation layer. -/
theorem load_data_always_name_error :
    ("os" ∉ appModuleGlobals) ∧
    ∀ fs, load_data_from_csv fs = .error .nameError := by
  refine ⟨by decide, ?_⟩
  intro fs
  rw [load_data_from_csv.eq_def, if_neg (by decide)]

/-- C10: every merged row has role `Employee`, `Contractor` or
`Unknown` (the directory assigns only the first two, the fallback the
third); working hours are 40 exactly when the role is `Employee` and 20
otherwise; and both activity counts are non-negative integers. -/
theorem merged_row_invariants (tok : Option String) (resp : SlackUsersResult)
    (d : List (String × Profile)) (slack linear : List (String × ℕ))
    (hd : fetch_slack_user_directory tok resp = .ok d) :
    ∀ row ∈ mergeRows d slack linear,
      (row.role = "Employee" ∨ row.role = "Contractor" ∨ row.role = "Unknown") ∧
      (row.workingHours = 40 ↔ row.role = "Employee") ∧
      (row.role ≠ "Employee" → row.workingHours = 20) ∧
      0 ≤ row.slackCount ∧ 0 ≤ row.linearCount := by
  have hroles : rolesOk d := by
    cases tok with
    | none => cases hd
    | some t =>
      cases resp with
      | apiError =>
        obtain rfl := Except.ok.inj hd
        intro p hp
        exact absurd hp (List.not_mem_nil p)
      | ok ms =>
        obtain rfl := Except.ok.inj hd
        exact rolesOk_buildDirectory ms
  intro row hrow
  obtain ⟨e, he, rfl⟩ := List.mem_map.mp hrow
  refine ⟨?_, ?_, ?_, Nat.zero_le _, Nat.zero_le _⟩
  · cases hp : lookupD d e with
    | none => right; right; simp [rowFor, hp, fallbackProfile]
    | some q =>
      have hq := lookupD_rolesOk hroles hp
      rcases hq with h | h
      · left; simp [rowFor, hp, h]
      · right; left; simp [rowFor, hp, h]
  · by_cases hrole : ((lookupD d e).getD (fallbackProfile e)).role = "Employee"
    · simp [rowFor, hrole]
    · simp [rowFor, hrole]
  · intro hne
    have hrole : ((lookupD d e).getD (fallbackProfile e)).role ≠ "Employee" := by
      intro h
      exact hne (by simp [rowFor, h])
    simp [rowFor, hrole]

theorem merged_row_invariants_witness :
    (ex10Row.role = "Employee" ∨ ex10Row.role = "Contractor" ∨
      ex10Row.role = "Unknown") ∧
    (ex10Row.workingHours = 40 ↔ ex10Row.role = "Employee") ∧
    (ex10Row.role ≠ "Employee" → ex10Row.workingHours = 20) ∧
    0 ≤ ex10Row.slackCount ∧ 0 ≤ ex10Row.linearCount :=
  merged_row_invariants (some "t") (.ok [ex10Member])
    (buildDirectory [ex10Member]) ex10Slack [] rfl ex10Row (by decide)

end EngagementGraph
